import Mathlib

/-!
Shallow embedding of the Litera backend (`main.py`, `schemas.py`).

The backend keeps one `Player` document per session in a document store and
appends one `ActionLog` per submitted choice.  The two endpoints modelled here
are `POST /api/start` (`start_session`) and `POST /api/choice`
(`submit_choice`).  Payload values arriving in the JSON body are modelled by
`PyVal`, a small universe of Python values with Python's equality (`==`) and
truthiness, because `submit_choice` applies `==` and `if success:` directly to
whatever the payload holds.  Python dicts (the `relationships` map and the
player collection) are modelled as association lists with update-in-place
semantics.  Machine integers are Lean `Int`s: Python ints are unbounded, so no
modular reduction is needed.
-/

namespace Litera

/-- A Python value as it can appear in a request payload: `None`, a bool, an
int or a string.  These are the shapes the scoring code inspects. -/
inductive PyVal where
  | none : PyVal
  | bool (b : Bool) : PyVal
  | int (n : Int) : PyVal
  | str (s : String) : PyVal
deriving DecidableEq, Repr

/-- Python `==` on `PyVal`: values of the same shape compare componentwise,
`True`/`False` equal the ints `1`/`0` (Python's `bool` is an `int` subtype),
and all other cross-shape comparisons are `False`. -/
def PyVal.eq : PyVal → PyVal → Bool
  | .none, .none => true
  | .bool a, .bool b => a == b
  | .int m, .int n => m == n
  | .str s, .str t => s == t
  | .bool a, .int n => (if a then (1 : Int) else 0) == n
  | .int n, .bool a => n == (if a then (1 : Int) else 0)
  | _, _ => false

/-- Python truthiness: `None` and falsy literals are false, everything else
follows Python's rules for bools, ints and strings. -/
def PyVal.truthy : PyVal → Bool
  | .none => false
  | .bool b => b
  | .int n => n != 0
  | .str s => s != ""

/-- A request payload: a JSON object, i.e. a finite string-keyed map. -/
abbrev Payload := List (String × PyVal)

/-- `payload.get(k, d)`: the stored value, or the default `d` if absent. -/
def Payload.getD (p : Payload) (k : String) (d : PyVal) : PyVal :=
  match p.find? (fun kv => kv.1 == k) with
  | Option.some kv => kv.2
  | Option.none => d

/-- ASCII lowercase of a character, as `str.lower` acts on ASCII. -/
def lowerChar (c : Char) : Char :=
  if 65 ≤ c.toNat ∧ c.toNat ≤ 90 then Char.ofNat (c.toNat + 32) else c

/-- `s.lower()` for ASCII strings (all module tags in play are ASCII). -/
def strLower (s : String) : String := ⟨s.data.map lowerChar⟩

/-- Association-list lookup, the read half of a Python dict access. -/
def alist.get? {α : Type} : List (String × α) → String → Option α
  | [], _ => Option.none
  | kv :: rest, k => if kv.1 == k then Option.some kv.2 else alist.get? rest k

/-- `d.get(k, v)`: lookup with a default, as the code reads relationships. -/
def alist.getD {α : Type} (l : List (String × α)) (k : String) (d : α) : α :=
  match alist.get? l k with
  | Option.some v => v
  | Option.none => d

/-- `d[k] = v` on a Python dict: overwrite in place if the key exists,
otherwise append the new binding. -/
def alist.set {α : Type} : List (String × α) → String → α → List (String × α)
  | [], k, v => [(k, v)]
  | kv :: rest, k, v =>
      if kv.1 == k then (k, v) :: rest else kv :: alist.set rest k v

/-- The `relationships` field: character name to affinity score. -/
abbrev Rel := List (String × Int)

/-- The mutable fields of a `Player` document (`schemas.Player`); the
`session_id` key is kept outside, as the key of the player collection. -/
structure PlayerDoc where
  public_trust : Int
  personal_clout : Int
  professional_skill : Int
  relationships : Rel
deriving DecidableEq, Repr

/-- Defaults from `schemas.Player`: trust 50, clout 50, skill 0, no
relationships. -/
def defaultPlayer : PlayerDoc :=
  { public_trust := 50, personal_clout := 50, professional_skill := 0,
    relationships := [] }

/-- The outcome record a branch of `submit_choice` builds: a message plus the
signed deltas it reports (`delta.public_trust`, `delta.personal_clout`,
`delta.professional_skill`, `delta.relationships`), each absent when the
branch does not report it. -/
structure Outcome where
  message : String
  dTrust : Option Int
  dClout : Option Int
  dSkill : Option Int
  dRel : List (String × Int)
deriving DecidableEq, Repr

/-- An `ActionLog` document (`schemas.ActionLog`). -/
structure ActionLog where
  session_id : String
  module : String
  action_type : String
  payload : Payload
  outcome : Outcome
deriving DecidableEq, Repr

/-- The document store: the `player` collection keyed by `session_id`, and
the append-only `actionlog` collection. -/
structure DB where
  players : List (String × PlayerDoc)
  logs : List ActionLog
deriving DecidableEq, Repr

/-- Body of `POST /api/start`. -/
structure StartSessionRequest where
  session_id : String
deriving DecidableEq, Repr

/-- Body of `POST /api/choice`. -/
structure ChoiceRequest where
  session_id : String
  module : String
  action_type : String
  payload : Payload
deriving DecidableEq, Repr

/-- The HTTP failures `submit_choice` can raise: 404 and 400. -/
inductive Err where
  | notFound (detail : String) : Err
  | badRequest (detail : String) : Err
deriving DecidableEq, Repr

/-- Response of a successful `POST /api/choice`. -/
structure ChoiceResponse where
  session_id : String
  public_trust : Int
  personal_clout : Int
  professional_skill : Int
  relationships : Rel
  outcome : Outcome
deriving DecidableEq, Repr

/-- Response of `POST /api/start` (it never fails). -/
structure StartResponse where
  session_id : String
  public_trust : Int
  personal_clout : Int
  professional_skill : Int
  relationships : Rel
deriving DecidableEq, Repr

/-- `start_session`: return the existing player's stats if a record exists
for the id, otherwise create a record with default stats and return it.
`create_document` appends to the `player` collection. -/
def start_session (db : DB) (body : StartSessionRequest) : StartResponse × DB :=
  match alist.get? db.players body.session_id with
  | Option.some existing =>
      ({ session_id := body.session_id,
         public_trust := existing.public_trust,
         personal_clout := existing.personal_clout,
         professional_skill := existing.professional_skill,
         relationships := existing.relationships }, db)
  | Option.none =>
      ({ session_id := body.session_id,
         public_trust := defaultPlayer.public_trust,
         personal_clout := defaultPlayer.personal_clout,
         professional_skill := defaultPlayer.professional_skill,
         relationships := defaultPlayer.relationships },
       { players := db.players ++ [(body.session_id, defaultPlayer)],
         logs := db.logs })

/-- The branch table of `submit_choice` (the lines between the module
dispatch and the persist step): given the lowercased module tag, the payload
and the current stats, produce the updated stats and the outcome record, or
nothing when the module is unknown (the code then raises 400). -/
def resolve (module : String) (payload : Payload) (pt pc ps : Int)
    (rel : Rel) : Option (Int × Int × Int × Rel × Outcome) :=
  if module == "prebunking" then
    let label := Payload.getD payload "label" PyVal.none
    let truth := Payload.getD payload "truth" PyVal.none
    if PyVal.eq label truth then
      Option.some (min 100 (pt + 5),
        (if PyVal.eq truth (PyVal.str "verified") = false
          then max 0 (pc - 1) else min 100 (pc + 2)),
        ps, rel,
        { message := "Good call.", dTrust := Option.some 5,
          dClout := Option.some
            (if PyVal.eq truth (PyVal.str "verified") then 2 else -1),
          dSkill := Option.none, dRel := [] })
    else
      Option.some (max 0 (pt - 8),
        (if PyVal.eq label (PyVal.str "verified") = false
          then min 100 (pc + 4) else max 0 (pc - 2)),
        ps, rel,
        { message := "That choice undermined trust.",
          dTrust := Option.some (-8),
          dClout := Option.some
            (if PyVal.eq label (PyVal.str "verified") = false then 4 else -2),
          dSkill := Option.none, dRel := [] })
  else if module == "ethical" then
    let choice := Payload.getD payload "choice" PyVal.none
    if PyVal.eq choice (PyVal.str "intervene") then
      Option.some (min 100 (pt + 6), pc, ps,
        alist.set (alist.set rel "victim" (min 100 (alist.getD rel "victim" 50 + 8)))
          "bystander"
          (min 100 (alist.getD (alist.set rel "victim" (min 100 (alist.getD rel "victim" 50 + 8)))
            "bystander" 50 + 8)),
        { message := "You stood up. Respect earned.", dTrust := Option.some 6,
          dClout := Option.none, dSkill := Option.none,
          dRel := [("victim", 8), ("bystander", 8)] })
    else if PyVal.eq choice (PyVal.str "report") then
      Option.some (min 100 (pt + 4), pc, ps,
        alist.set rel "victim" (min 100 (alist.getD rel "victim" 50 + 6)),
        { message := "You reported the issue.", dTrust := Option.some 4,
          dClout := Option.none, dSkill := Option.none,
          dRel := [("victim", 6)] })
    else if PyVal.eq choice (PyVal.str "stay_silent") then
      Option.some (max 0 (pt - 5), pc, ps,
        alist.set rel "victim" (max 0 (alist.getD rel "victim" 50 - 7)),
        { message := "Silence has a cost.", dTrust := Option.some (-5),
          dClout := Option.none, dSkill := Option.none,
          dRel := [("victim", -7)] })
    else if PyVal.eq choice (PyVal.str "participate") then
      Option.some (max 0 (pt - 12), pc, ps,
        alist.set (alist.set rel "victim" (max 0 (alist.getD rel "victim" 50 - 10)))
          "bystander"
          (max 0 (alist.getD (alist.set rel "victim" (max 0 (alist.getD rel "victim" 50 - 10)))
            "bystander" 50 - 10)),
        { message := "Harmful choice hurt your standing.",
          dTrust := Option.some (-12), dClout := Option.none,
          dSkill := Option.none, dRel := [("victim", -10), ("bystander", -10)] })
    else
      Option.some (pt, pc, ps, rel,
        { message := "No effect", dTrust := Option.none, dClout := Option.none,
          dSkill := Option.none, dRel := [] })
  else if module == "professional" then
    let success := Payload.getD payload "success" (PyVal.bool false)
    if success.truthy then
      Option.some (min 100 (pt + 2), pc, min 100 (ps + 7), rel,
        { message := "Professional skill leveled up!", dTrust := Option.some 2,
          dClout := Option.none, dSkill := Option.some 7, dRel := [] })
    else
      Option.some (pt, pc, max 0 (ps - 2), rel,
        { message := "Incomplete attempt. Try again.", dTrust := Option.none,
          dClout := Option.none, dSkill := Option.some (-2), dRel := [] })
  else
    Option.none

/-- `submit_choice`: fetch the player (404 if absent), lowercase the module
tag and resolve the branch (400 if unknown), then persist the four fields
with `update_one`/`$set`, append one `ActionLog`, and return the new state
together with the outcome.  A raised error leaves the store untouched. -/
def submit_choice (db : DB) (body : ChoiceRequest) :
    Except Err ChoiceResponse × DB :=
  match alist.get? db.players body.session_id with
  | Option.none =>
      (Except.error (Err.notFound "Session not found. Start first."), db)
  | Option.some pd =>
      match resolve (strLower body.module) body.payload pd.public_trust
          pd.personal_clout pd.professional_skill pd.relationships with
      | Option.none => (Except.error (Err.badRequest "Unknown module"), db)
      | Option.some (pt, pc, ps, rel, outcome) =>
          (Except.ok
            { session_id := body.session_id, public_trust := pt,
              personal_clout := pc, professional_skill := ps,
              relationships := rel, outcome := outcome },
           { players := alist.set db.players body.session_id
               { public_trust := pt, personal_clout := pc,
                 professional_skill := ps, relationships := rel },
             logs := db.logs ++
               [{ session_id := body.session_id,
                  module := strLower body.module,
                  action_type := body.action_type,
                  payload := body.payload, outcome := outcome }] })

/-- The spec's range invariant on a player document: each of the three stats
and every relationship entry lies in `[0, 100]`. -/
def PlayerDoc.InRange (pd : PlayerDoc) : Prop :=
  0 ≤ pd.public_trust ∧ pd.public_trust ≤ 100 ∧
  0 ≤ pd.personal_clout ∧ pd.personal_clout ≤ 100 ∧
  0 ≤ pd.professional_skill ∧ pd.professional_skill ≤ 100 ∧
  ∀ kv ∈ pd.relationships, 0 ≤ kv.2 ∧ kv.2 ≤ 100

instance (pd : PlayerDoc) : Decidable pd.InRange := by
  unfold PlayerDoc.InRange; infer_instance

/-- Clamp to `[0, 100]`, the range the spec names for every stored stat. -/
def clamp (x : Int) : Int := max 0 (min 100 x)

/-- Iterate `submit_choice` with a fixed request body `n` times. -/
def submitN (body : ChoiceRequest) : DB → Nat → DB
  | db, 0 => db
  | db, n + 1 => submitN body (submit_choice db body).2 n

/-! ### Association-list lemmas -/

theorem alist.get_set_self {α : Type} (l : List (String × α)) (k : String)
    (v : α) : alist.get? (alist.set l k v) k = Option.some v := by
  induction l with
  | nil => simp [alist.set, alist.get?]
  | cons kv rest ih =>
      by_cases h : kv.1 = k
      · simp [alist.set, alist.get?, h]
      · simp only [alist.set, alist.get?, beq_iff_eq, h, if_false]
        exact ih

theorem alist.get_set_ne {α : Type} (l : List (String × α)) (k k' : String)
    (v : α) (h : k' ≠ k) :
    alist.get? (alist.set l k v) k' = alist.get? l k' := by
  induction l with
  | nil => simp [alist.set, alist.get?, Ne.symm h]
  | cons kv rest ih =>
      by_cases hk : kv.1 = k
      · subst hk
        simp [alist.set, alist.get?, Ne.symm h]
      · simp only [alist.set, alist.get?, beq_iff_eq, hk, if_false]
        by_cases hk' : kv.1 = k' <;> simp [alist.get?, hk', ih]

theorem alist.mem_set {α : Type} (l : List (String × α)) (k : String) (v : α) :
    ∀ kv ∈ alist.set l k v, kv ∈ l ∨ kv = (k, v) := by
  induction l with
  | nil => simp [alist.set]
  | cons kv₀ rest ih =>
      intro kv hkv
      by_cases h : kv₀.1 = k
      · simp only [alist.set, beq_iff_eq, h, if_true, List.mem_cons] at hkv
        rcases hkv with h' | h'
        · exact Or.inr h'
        · exact Or.inl (List.mem_cons_of_mem _ h')
      · simp only [alist.set, beq_iff_eq, h, if_false, List.mem_cons] at hkv
        rcases hkv with h' | h'
        · exact Or.inl (by simp [h'])
        · rcases ih kv h' with h'' | h''
          · exact Or.inl (List.mem_cons_of_mem _ h'')
          · exact Or.inr h''

theorem alist.forall_set {α : Type} (P : α → Prop) (l : List (String × α))
    (k : String) (v : α) (hl : ∀ kv ∈ l, P kv.2) (hv : P v) :
    ∀ kv ∈ alist.set l k v, P kv.2 := by
  intro kv hkv
  rcases alist.mem_set l k v kv hkv with h | h
  · exact hl kv h
  · rw [h]; exact hv

theorem alist.get?_forall {α : Type} (P : α → Prop) (l : List (String × α))
    (hl : ∀ kv ∈ l, P kv.2) (k : String) (v : α)
    (h : alist.get? l k = Option.some v) : P v := by
  induction l with
  | nil => simp [alist.get?] at h
  | cons kv rest ih =>
      by_cases hk : kv.1 = k
      · simp only [alist.get?, beq_iff_eq, hk, if_true, Option.some.injEq] at h
        exact h ▸ hl kv (List.mem_cons_self _ _)
      · simp only [alist.get?, beq_iff_eq, hk, if_false] at h
        exact ih (fun kv' hkv' => hl kv' (List.mem_cons_of_mem _ hkv')) h

theorem alist.getD_bound (rel : Rel)
    (hl : ∀ kv ∈ rel, 0 ≤ kv.2 ∧ kv.2 ≤ 100) (k : String) (d : Int)
    (hd0 : 0 ≤ d) (hd1 : d ≤ 100) :
    0 ≤ alist.getD rel k d ∧ alist.getD rel k d ≤ 100 := by
  unfold alist.getD
  cases h : alist.get? rel k with
  | none => exact ⟨hd0, hd1⟩
  | some v =>
      exact alist.get?_forall (fun x : Int => 0 ≤ x ∧ x ≤ 100) rel hl k v h

/-- Updating one relationship key with an in-range value keeps every entry
in range. -/
theorem set_clamped_range (rel : Rel)
    (hl : ∀ kv ∈ rel, 0 ≤ kv.2 ∧ kv.2 ≤ 100) (k : String) (v : Int)
    (hv : 0 ≤ v ∧ v ≤ 100) :
    ∀ kv ∈ alist.set rel k v, 0 ≤ kv.2 ∧ kv.2 ≤ 100 :=
  alist.forall_set (fun x : Int => 0 ≤ x ∧ x ≤ 100) rel k v hl hv

/-! ### Behaviour of the resolver -/

/-- Whenever `resolve` succeeds from in-range stats, the stats it produces
are again in range. -/
theorem resolve_range (module : String) (payload : Payload) (pt pc ps : Int)
    (rel : Rel) (pt' pc' ps' : Int) (rel' : Rel) (out : Outcome)
    (h0 : 0 ≤ pt) (h1 : pt ≤ 100) (h2 : 0 ≤ pc) (h3 : pc ≤ 100)
    (h4 : 0 ≤ ps) (h5 : ps ≤ 100)
    (hrel : ∀ kv ∈ rel, 0 ≤ kv.2 ∧ kv.2 ≤ 100)
    (hres : resolve module payload pt pc ps rel =
      Option.some (pt', pc', ps', rel', out)) :
    0 ≤ pt' ∧ pt' ≤ 100 ∧ 0 ≤ pc' ∧ pc' ≤ 100 ∧ 0 ≤ ps' ∧ ps' ≤ 100 ∧
    ∀ kv ∈ rel', 0 ≤ kv.2 ∧ kv.2 ≤ 100 := by
  simp only [resolve] at hres
  split_ifs at hres <;>
    simp only [Option.some.injEq, Prod.mk.injEq] at hres <;>
    obtain ⟨e1, e2, e3, e4, e5⟩ := hres <;>
    subst e1 <;> subst e2 <;> subst e3 <;> subst e4 <;>
    refine ⟨by omega, by omega, by omega, by omega, by omega, by omega, ?_⟩ <;>
    have hvic := alist.getD_bound rel hrel "victim" 50 (by omega) (by omega)
  all_goals
    first
      | exact hrel
      | exact set_clamped_range rel hrel "victim" _ (by omega)
      | (have hs := set_clamped_range rel hrel "victim"
            (min 100 (alist.getD rel "victim" 50 + 8)) (by omega)
         have hby := alist.getD_bound _ hs "bystander" 50 (by omega) (by omega)
         exact set_clamped_range _ hs "bystander" _ (by omega))
      | (have hs := set_clamped_range rel hrel "victim"
            (max 0 (alist.getD rel "victim" 50 - 10)) (by omega)
         have hby := alist.getD_bound _ hs "bystander" 50 (by omega) (by omega)
         exact set_clamped_range _ hs "bystander" _ (by omega))

theorem alist.getD_set_ne {α : Type} (l : List (String × α)) (k k' : String)
    (v : α) (d : α) (h : k' ≠ k) :
    alist.getD (alist.set l k v) k' d = alist.getD l k' d := by
  unfold alist.getD
  rw [alist.get_set_ne l k k' v h]

/-- Python `==` between an arbitrary payload value and a string literal holds
exactly when the value is that string. -/
theorem PyVal.eq_str_iff (c : PyVal) (s : String) :
    PyVal.eq c (PyVal.str s) = true ↔ c = PyVal.str s := by
  cases c <;> simp [PyVal.eq]

/-- When the player exists and the resolver succeeds, `submit_choice`
persists the resolved stats and appends exactly one log entry. -/
theorem submit_choice_found (db : DB) (body : ChoiceRequest) (pd : PlayerDoc)
    (hpd : alist.get? db.players body.session_id = Option.some pd)
    (pt pc ps : Int) (rel : Rel) (out : Outcome)
    (hres : resolve (strLower body.module) body.payload pd.public_trust
      pd.personal_clout pd.professional_skill pd.relationships =
      Option.some (pt, pc, ps, rel, out)) :
    submit_choice db body =
      (Except.ok
        { session_id := body.session_id, public_trust := pt,
          personal_clout := pc, professional_skill := ps,
          relationships := rel, outcome := out },
       { players :=
           alist.set db.players body.session_id
             { public_trust := pt, personal_clout := pc,
               professional_skill := ps, relationships := rel },
         logs := db.logs ++
           [{ session_id := body.session_id, module := strLower body.module,
              action_type := body.action_type, payload := body.payload,
              outcome := out }] }) := by
  unfold submit_choice
  rw [hpd]
  dsimp only
  rw [hres]

/-- Concrete store fixture: one player with default stats under id `s`. -/
def dbS : DB := { players := [("s", defaultPlayer)], logs := [] }

/-- Concrete choice request fixture for session `s`. -/
def reqOf (m : String) (p : Payload) : ChoiceRequest :=
  { session_id := "s", module := m, action_type := "choice", payload := p }

/-- C1: for every choice submission starting from a player whose four numeric
fields and every relationships entry are within `[0, 100]`, every value the
submission leaves stored for that player is again within `[0, 100]`. -/
theorem submit_choice_preserves_range (db : DB) (body : ChoiceRequest)
    (pd : PlayerDoc)
    (hpd : alist.get? db.players body.session_id = Option.some pd)
    (hr : pd.InRange) (pd' : PlayerDoc)
    (hpd' : alist.get? (submit_choice db body).2.players body.session_id =
      Option.some pd') :
    pd'.InRange := by
  obtain ⟨b0, b1, b2, b3, b4, b5, b6⟩ := hr
  unfold submit_choice at hpd'
  rw [hpd] at hpd'
  dsimp only at hpd'
  cases hres : resolve (strLower body.module) body.payload pd.public_trust
      pd.personal_clout pd.professional_skill pd.relationships with
  | none =>
      rw [hres] at hpd'
      dsimp only at hpd'
      rw [hpd] at hpd'
      cases hpd'
      exact ⟨b0, b1, b2, b3, b4, b5, b6⟩
  | some r =>
      obtain ⟨pt, pc, ps, rel, out⟩ := r
      rw [hres] at hpd'
      dsimp only at hpd'
      rw [alist.get_set_self] at hpd'
      have hb := resolve_range (strLower body.module) body.payload
        pd.public_trust pd.personal_clout pd.professional_skill
        pd.relationships pt pc ps rel out b0 b1 b2 b3 b4 b5 b6 hres
      cases hpd'
      exact hb

/-- Witness for C1 at a concrete `participate` submission from defaults. -/
theorem submit_choice_preserves_range_witness :
    PlayerDoc.InRange
      { public_trust := 38, personal_clout := 50, professional_skill := 0,
        relationships := [("victim", 40), ("bystander", 40)] } :=
  submit_choice_preserves_range dbS
    (reqOf "ethical" [("choice", PyVal.str "participate")]) defaultPlayer
    (by decide) (by decide)
    { public_trust := 38, personal_clout := 50, professional_skill := 0,
      relationships := [("victim", 40), ("bystander", 40)] }
    (by decide)

/-- C2: for every player state and every prebunking submission with `label`
and `truth` strings drawn from verified/misleading/hoax, a match adds 5 to
trust (clamped) and `+2`/`-1` to clout depending on `truth == "verified"`,
with message "Good call."; a mismatch subtracts 8 from trust (clamped) and
applies `+4`/`-2` to clout depending on `label != "verified"`, with message
"That choice undermined trust."; skill and relationships are persisted
unchanged. -/
theorem prebunking_rules (db : DB) (body : ChoiceRequest) (pd : PlayerDoc)
    (l t : String)
    (hm : body.module = "prebunking")
    (hl : l = "verified" ∨ l = "misleading" ∨ l = "hoax")
    (ht : t = "verified" ∨ t = "misleading" ∨ t = "hoax")
    (hp : body.payload = [("label", PyVal.str l), ("truth", PyVal.str t)])
    (hpd : alist.get? db.players body.session_id = Option.some pd) :
    ∃ r : ChoiceResponse, (submit_choice db body).1 = Except.ok r ∧
      r.public_trust =
        (if l = t then min 100 (pd.public_trust + 5)
          else max 0 (pd.public_trust - 8)) ∧
      r.personal_clout =
        (if l = t then
          (if t = "verified" then min 100 (pd.personal_clout + 2)
            else max 0 (pd.personal_clout - 1))
         else
          (if l = "verified" then max 0 (pd.personal_clout - 2)
            else min 100 (pd.personal_clout + 4))) ∧
      r.outcome.message =
        (if l = t then "Good call." else "That choice undermined trust.") ∧
      alist.get? (submit_choice db body).2.players body.session_id =
        Option.some
          { public_trust := r.public_trust,
            personal_clout := r.personal_clout,
            professional_skill := pd.professional_skill,
            relationships := pd.relationships } := by
  have hlow : strLower "prebunking" = "prebunking" := by decide
  by_cases hlt : l = t
  · by_cases hv : t = "verified"
    · have hres : resolve (strLower body.module) body.payload pd.public_trust
          pd.personal_clout pd.professional_skill pd.relationships =
          Option.some (min 100 (pd.public_trust + 5),
            min 100 (pd.personal_clout + 2), pd.professional_skill,
            pd.relationships,
            { message := "Good call.", dTrust := Option.some 5,
              dClout := Option.some 2, dSkill := Option.none, dRel := [] }) := by
        rw [hm, hlow, hp]
        simp [resolve, Payload.getD, PyVal.eq, hlt, hv]
      rw [submit_choice_found db body pd hpd _ _ _ _ _ hres]
      exact ⟨_, rfl, by simp [hlt], by simp [hlt, hv],
        by simp [hlt], by simp [hlt, hv, alist.get_set_self]⟩
    · have hres : resolve (strLower body.module) body.payload pd.public_trust
          pd.personal_clout pd.professional_skill pd.relationships =
          Option.some (min 100 (pd.public_trust + 5),
            max 0 (pd.personal_clout - 1), pd.professional_skill,
            pd.relationships,
            { message := "Good call.", dTrust := Option.some 5,
              dClout := Option.some (-1), dSkill := Option.none,
              dRel := [] }) := by
        rw [hm, hlow, hp]
        simp [resolve, Payload.getD, PyVal.eq, hlt, hv]
      rw [submit_choice_found db body pd hpd _ _ _ _ _ hres]
      exact ⟨_, rfl, by simp [hlt], by simp [hlt, hv],
        by simp [hlt], by simp [hlt, hv, alist.get_set_self]⟩
  · by_cases hv : l = "verified"
    · have hne : ¬ "verified" = t := hv ▸ hlt
      have hres : resolve (strLower body.module) body.payload pd.public_trust
          pd.personal_clout pd.professional_skill pd.relationships =
          Option.some (max 0 (pd.public_trust - 8),
            max 0 (pd.personal_clout - 2), pd.professional_skill,
            pd.relationships,
            { message := "That choice undermined trust.",
              dTrust := Option.some (-8), dClout := Option.some (-2),
              dSkill := Option.none, dRel := [] }) := by
        rw [hm, hlow, hp]
        simp [resolve, Payload.getD, PyVal.eq, hlt, hv, hne]
      rw [submit_choice_found db body pd hpd _ _ _ _ _ hres]
      exact ⟨_, rfl, by simp [hlt, hne], by simp [hlt, hv, hne],
        by simp [hlt, hne], by simp [hlt, hv, hne, alist.get_set_self]⟩
    · have hres : resolve (strLower body.module) body.payload pd.public_trust
          pd.personal_clout pd.professional_skill pd.relationships =
          Option.some (max 0 (pd.public_trust - 8),
            min 100 (pd.personal_clout + 4), pd.professional_skill,
            pd.relationships,
            { message := "That choice undermined trust.",
              dTrust := Option.some (-8), dClout := Option.some 4,
              dSkill := Option.none, dRel := [] }) := by
        rw [hm, hlow, hp]
        simp [resolve, Payload.getD, PyVal.eq, hlt, hv]
      rw [submit_choice_found db body pd hpd _ _ _ _ _ hres]
      exact ⟨_, rfl, by simp [hlt], by simp [hlt, hv],
        by simp [hlt], by simp [hlt, hv, alist.get_set_self]⟩

/-- Witness for C2: from trust 50 and clout 50, `label = truth = "verified"`
yields trust 55 and clout 52. -/
theorem prebunking_rules_witness :
    ∃ r : ChoiceResponse,
      (submit_choice dbS (reqOf "prebunking"
        [("label", PyVal.str "verified"),
         ("truth", PyVal.str "verified")])).1 = Except.ok r ∧
      r.public_trust = 55 ∧ r.personal_clout = 52 := by
  obtain ⟨r, h1, h2, h3, h4, h5⟩ := prebunking_rules dbS
    (reqOf "prebunking" [("label", PyVal.str "verified"),
      ("truth", PyVal.str "verified")]) defaultPlayer "verified" "verified"
    rfl (Or.inl rfl) (Or.inl rfl) rfl (by decide)
  norm_num [defaultPlayer] at h2 h3
  exact ⟨r, h1, h2, h3⟩

/-- Python `==` against a string literal is `False` for any other value. -/
theorem PyVal.eq_str_false (c : PyVal) (s : String) (h : c ≠ PyVal.str s) :
    PyVal.eq c (PyVal.str s) = false := by
  cases hb : PyVal.eq c (PyVal.str s) with
  | false => rfl
  | true => exact absurd ((PyVal.eq_str_iff c s).mp hb) h

/-- C3: for every player state and every ethical submission, `intervene`
adds 6 to trust and 8 to the victim and bystander relationships (defaulting
from 50, clamped); `report` adds 4 to trust and 6 to victim; `stay_silent`
subtracts 5 from trust and 7 from victim; `participate` subtracts 12 from
trust and 10 from victim and bystander; any other choice value leaves the
player unchanged with outcome message "No effect"; clout and skill are never
touched. -/
theorem ethical_rules (db : DB) (body : ChoiceRequest) (pd : PlayerDoc)
    (c : PyVal) (hm : body.module = "ethical")
    (hc : Payload.getD body.payload "choice" PyVal.none = c)
    (hpd : alist.get? db.players body.session_id = Option.some pd) :
    ∃ pd' : PlayerDoc, ∃ r : ChoiceResponse,
      alist.get? (submit_choice db body).2.players body.session_id =
        Option.some pd' ∧
      (submit_choice db body).1 = Except.ok r ∧
      pd'.personal_clout = pd.personal_clout ∧
      pd'.professional_skill = pd.professional_skill ∧
      (c = PyVal.str "intervene" →
        pd'.public_trust = min 100 (pd.public_trust + 6) ∧
        alist.get? pd'.relationships "victim" =
          Option.some (min 100 (alist.getD pd.relationships "victim" 50 + 8)) ∧
        alist.get? pd'.relationships "bystander" =
          Option.some (min 100 (alist.getD pd.relationships "bystander" 50 + 8))) ∧
      (c = PyVal.str "report" →
        pd'.public_trust = min 100 (pd.public_trust + 4) ∧
        alist.get? pd'.relationships "victim" =
          Option.some (min 100 (alist.getD pd.relationships "victim" 50 + 6)) ∧
        (∀ k : String, k ≠ "victim" →
          alist.get? pd'.relationships k = alist.get? pd.relationships k)) ∧
      (c = PyVal.str "stay_silent" →
        pd'.public_trust = max 0 (pd.public_trust - 5) ∧
        alist.get? pd'.relationships "victim" =
          Option.some (max 0 (alist.getD pd.relationships "victim" 50 - 7)) ∧
        (∀ k : String, k ≠ "victim" →
          alist.get? pd'.relationships k = alist.get? pd.relationships k)) ∧
      (c = PyVal.str "participate" →
        pd'.public_trust = max 0 (pd.public_trust - 12) ∧
        alist.get? pd'.relationships "victim" =
          Option.some (max 0 (alist.getD pd.relationships "victim" 50 - 10)) ∧
        alist.get? pd'.relationships "bystander" =
          Option.some (max 0 (alist.getD pd.relationships "bystander" 50 - 10))) ∧
      (c ≠ PyVal.str "intervene" → c ≠ PyVal.str "report" →
        c ≠ PyVal.str "stay_silent" → c ≠ PyVal.str "participate" →
        pd' = pd ∧ r.outcome.message = "No effect") := by
  have hlow : strLower "ethical" = "ethical" := by decide
  have hbv : ("bystander" : String) ≠ "victim" := by decide
  have hvb : ("victim" : String) ≠ "bystander" := by decide
  by_cases h1 : c = PyVal.str "intervene"
  · subst h1
    have hres : resolve (strLower body.module) body.payload pd.public_trust
        pd.personal_clout pd.professional_skill pd.relationships =
        Option.some (min 100 (pd.public_trust + 6), pd.personal_clout,
          pd.professional_skill,
          alist.set
            (alist.set pd.relationships "victim"
              (min 100 (alist.getD pd.relationships "victim" 50 + 8)))
            "bystander"
            (min 100 (alist.getD
              (alist.set pd.relationships "victim"
                (min 100 (alist.getD pd.relationships "victim" 50 + 8)))
              "bystander" 50 + 8)),
          { message := "You stood up. Respect earned.",
            dTrust := Option.some 6, dClout := Option.none,
            dSkill := Option.none,
            dRel := [("victim", 8), ("bystander", 8)] }) := by
      rw [hm, hlow]
      simp [resolve, hc, PyVal.eq]
    rw [submit_choice_found db body pd hpd _ _ _ _ _ hres]
    refine ⟨_, _, alist.get_set_self _ _ _, rfl, rfl, rfl, ?_, ?_, ?_, ?_, ?_⟩
    · intro _
      refine ⟨rfl, ?_, ?_⟩
      · rw [alist.get_set_ne _ _ _ _ hvb, alist.get_set_self]
      · rw [alist.get_set_self, alist.getD_set_ne _ _ _ _ _ hbv]
    · intro h; exact absurd h (by simp)
    · intro h; exact absurd h (by simp)
    · intro h; exact absurd h (by simp)
    · intro h; exact absurd rfl h
  · by_cases h2 : c = PyVal.str "report"
    · subst h2
      have hres : resolve (strLower body.module) body.payload pd.public_trust
          pd.personal_clout pd.professional_skill pd.relationships =
          Option.some (min 100 (pd.public_trust + 4), pd.personal_clout,
            pd.professional_skill,
            alist.set pd.relationships "victim"
              (min 100 (alist.getD pd.relationships "victim" 50 + 6)),
            { message := "You reported the issue.", dTrust := Option.some 4,
              dClout := Option.none, dSkill := Option.none,
              dRel := [("victim", 6)] }) := by
        rw [hm, hlow]
        simp [resolve, hc, PyVal.eq]
      rw [submit_choice_found db body pd hpd _ _ _ _ _ hres]
      refine ⟨_, _, alist.get_set_self _ _ _, rfl, rfl, rfl, ?_, ?_, ?_, ?_, ?_⟩
      · intro h; exact absurd h (by simp)
      · intro _
        refine ⟨rfl, alist.get_set_self _ _ _, ?_⟩
        intro k hk
        exact alist.get_set_ne _ _ _ _ hk
      · intro h; exact absurd h (by simp)
      · intro h; exact absurd h (by simp)
      · intro _ h; exact absurd rfl h
    · by_cases h3 : c = PyVal.str "stay_silent"
      · subst h3
        have hres : resolve (strLower body.module) body.payload
            pd.public_trust pd.personal_clout pd.professional_skill
            pd.relationships =
            Option.some (max 0 (pd.public_trust - 5), pd.personal_clout,
              pd.professional_skill,
              alist.set pd.relationships "victim"
                (max 0 (alist.getD pd.relationships "victim" 50 - 7)),
              { message := "Silence has a cost.", dTrust := Option.some (-5),
                dClout := Option.none, dSkill := Option.none,
                dRel := [("victim", -7)] }) := by
          rw [hm, hlow]
          simp [resolve, hc, PyVal.eq]
        rw [submit_choice_found db body pd hpd _ _ _ _ _ hres]
        refine ⟨_, _, alist.get_set_self _ _ _, rfl, rfl, rfl,
          ?_, ?_, ?_, ?_, ?_⟩
        · intro h; exact absurd h (by simp)
        · intro h; exact absurd h (by simp)
        · intro _
          refine ⟨rfl, alist.get_set_self _ _ _, ?_⟩
          intro k hk
          exact alist.get_set_ne _ _ _ _ hk
        · intro h; exact absurd h (by simp)
        · intro _ _ h; exact absurd rfl h
      · by_cases h4 : c = PyVal.str "participate"
        · subst h4
          have hres : resolve (strLower body.module) body.payload
              pd.public_trust pd.personal_clout pd.professional_skill
              pd.relationships =
              Option.some (max 0 (pd.public_trust - 12), pd.personal_clout,
                pd.professional_skill,
                alist.set
                  (alist.set pd.relationships "victim"
                    (max 0 (alist.getD pd.relationships "victim" 50 - 10)))
                  "bystander"
                  (max 0 (alist.getD
                    (alist.set pd.relationships "victim"
                      (max 0 (alist.getD pd.relationships "victim" 50 - 10)))
                    "bystander" 50 - 10)),
                { message := "Harmful choice hurt your standing.",
                  dTrust := Option.some (-12), dClout := Option.none,
                  dSkill := Option.none,
                  dRel := [("victim", -10), ("bystander", -10)] }) := by
            rw [hm, hlow]
            simp [resolve, hc, PyVal.eq]
          rw [submit_choice_found db body pd hpd _ _ _ _ _ hres]
          refine ⟨_, _, alist.get_set_self _ _ _, rfl, rfl, rfl,
            ?_, ?_, ?_, ?_, ?_⟩
          · intro h; exact absurd h (by simp)
          · intro h; exact absurd h (by simp)
          · intro h; exact absurd h (by simp)
          · intro _
            refine ⟨rfl, ?_, ?_⟩
            · rw [alist.get_set_ne _ _ _ _ hvb, alist.get_set_self]
            · rw [alist.get_set_self, alist.getD_set_ne _ _ _ _ _ hbv]
          · intro _ _ _ h; exact absurd rfl h
        · have hres : resolve (strLower body.module) body.payload
              pd.public_trust pd.personal_clout pd.professional_skill
              pd.relationships =
              Option.some (pd.public_trust, pd.personal_clout,
                pd.professional_skill, pd.relationships,
                { message := "No effect", dTrust := Option.none,
                  dClout := Option.none, dSkill := Option.none,
                  dRel := [] }) := by
            rw [hm, hlow]
            simp [resolve, hc, PyVal.eq_str_false _ _ h1,
              PyVal.eq_str_false _ _ h2, PyVal.eq_str_false _ _ h3,
              PyVal.eq_str_false _ _ h4]
          rw [submit_choice_found db body pd hpd _ _ _ _ _ hres]
          refine ⟨_, _, alist.get_set_self _ _ _, rfl, rfl, rfl,
            ?_, ?_, ?_, ?_, ?_⟩
          · intro h; exact absurd h h1
          · intro h; exact absurd h h2
          · intro h; exact absurd h h3
          · intro h; exact absurd h h4
          · intro _ _ _ _; exact ⟨rfl, rfl⟩


/-- Witness for C3: from defaults, `participate` yields trust 38 and victim
and bystander each 40. -/
theorem ethical_rules_witness :
    ∃ pd' : PlayerDoc,
      alist.get? (submit_choice dbS
        (reqOf "ethical" [("choice", PyVal.str "participate")])).2.players
        "s" = Option.some pd' ∧
      pd'.public_trust = 38 ∧
      alist.get? pd'.relationships "victim" = Option.some 40 ∧
      alist.get? pd'.relationships "bystander" = Option.some 40 := by
  obtain ⟨pd', r, hA, hB, hC, hD, hI1, hI2, hI3, hI4, hI5⟩ := ethical_rules
    dbS (reqOf "ethical" [("choice", PyVal.str "participate")]) defaultPlayer
    (PyVal.str "participate") rfl rfl (by decide)
  obtain ⟨hT, hV, hBy⟩ := hI4 rfl
  refine ⟨pd', hA, ?_, ?_, ?_⟩
  · rw [hT]; decide
  · rw [hV]; decide
  · rw [hBy]; decide

set_option maxRecDepth 8000 in
/-- C4: for every player state and every professional submission, a payload
whose `success` value is the boolean `b` (absent defaults to false) adds 7 to
skill and 2 to trust when `b` is true and subtracts 2 from skill (floored at
0) with trust unchanged when `b` is false; the `task` field never affects the
resolver's output; and 30 consecutive `success=false` submissions from skill
0 leave skill at 0. -/
theorem professional_rules (db : DB) (body : ChoiceRequest) (pd : PlayerDoc)
    (hm : body.module = "professional")
    (hpd : alist.get? db.players body.session_id = Option.some pd) :
    (∀ b : Bool,
      Payload.getD body.payload "success" (PyVal.bool false) = PyVal.bool b →
      ∃ pd' : PlayerDoc,
        alist.get? (submit_choice db body).2.players body.session_id =
          Option.some pd' ∧
        pd'.professional_skill =
          (if b then min 100 (pd.professional_skill + 7)
            else max 0 (pd.professional_skill - 2)) ∧
        pd'.public_trust =
          (if b then min 100 (pd.public_trust + 2) else pd.public_trust) ∧
        pd'.personal_clout = pd.personal_clout ∧
        pd'.relationships = pd.relationships) ∧
    (∀ p₁ p₂ : Payload, ∀ pt pc ps : Int, ∀ rel : Rel,
      Payload.getD p₁ "success" (PyVal.bool false) =
        Payload.getD p₂ "success" (PyVal.bool false) →
      resolve "professional" p₁ pt pc ps rel =
        resolve "professional" p₂ pt pc ps rel) ∧
    (alist.get? (submitN (reqOf "professional"
        [("success", PyVal.bool false)]) dbS 30).players "s").map
      PlayerDoc.professional_skill = Option.some 0 := by
  have hlow : strLower "professional" = "professional" := by decide
  refine ⟨?_, ?_, ?_⟩
  · intro b hb
    cases b
    · have hres : resolve (strLower body.module) body.payload pd.public_trust
          pd.personal_clout pd.professional_skill pd.relationships =
          Option.some (pd.public_trust, pd.personal_clout,
            max 0 (pd.professional_skill - 2), pd.relationships,
            { message := "Incomplete attempt. Try again.",
              dTrust := Option.none, dClout := Option.none,
              dSkill := Option.some (-2), dRel := [] }) := by
        rw [hm, hlow]
        simp [resolve, hb, PyVal.truthy]
      rw [submit_choice_found db body pd hpd _ _ _ _ _ hres]
      exact ⟨_, alist.get_set_self _ _ _, by simp, by simp, rfl, rfl⟩
    · have hres : resolve (strLower body.module) body.payload pd.public_trust
          pd.personal_clout pd.professional_skill pd.relationships =
          Option.some (min 100 (pd.public_trust + 2), pd.personal_clout,
            min 100 (pd.professional_skill + 7), pd.relationships,
            { message := "Professional skill leveled up!",
              dTrust := Option.some 2, dClout := Option.none,
              dSkill := Option.some 7, dRel := [] }) := by
        rw [hm, hlow]
        simp [resolve, hb, PyVal.truthy]
      rw [submit_choice_found db body pd hpd _ _ _ _ _ hres]
      exact ⟨_, alist.get_set_self _ _ _, by simp, by simp, rfl, rfl⟩
  · intro p₁ p₂ pt pc ps rel h
    have e1 : ("professional" == "prebunking") = false := by decide
    have e2 : ("professional" == "ethical") = false := by decide
    simp only [resolve, e1, e2, Bool.false_eq_true, if_false,
      beq_self_eq_true, if_true, h]
  · decide

/-- Witness for C4 at a concrete successful submission from defaults. -/
theorem professional_rules_witness :
    ∃ pd' : PlayerDoc,
      alist.get? (submit_choice dbS (reqOf "professional"
        [("success", PyVal.bool true)])).2.players "s" = Option.some pd' ∧
      pd'.professional_skill = 7 ∧ pd'.public_trust = 52 := by
  obtain ⟨h1, h2, h3⟩ := professional_rules dbS
    (reqOf "professional" [("success", PyVal.bool true)]) defaultPlayer rfl
    (by decide)
  obtain ⟨pd', hA, hS, hT, hC, hR⟩ := h1 true rfl
  refine ⟨pd', hA, ?_, ?_⟩
  · rw [hS]; decide
  · rw [hT]; decide

theorem alist.get_append_singleton {α : Type} (l : List (String × α))
    (k : String) (v : α) (h : alist.get? l k = Option.none) :
    alist.get? (l ++ [(k, v)]) k = Option.some v := by
  induction l with
  | nil => simp [alist.get?]
  | cons kv rest ih =>
      by_cases hk : kv.1 = k
      · simp [alist.get?, hk] at h
      · simp only [List.cons_append, alist.get?, beq_iff_eq, hk, if_false]
        exact ih (by simpa [alist.get?, hk] using h)

/-- When the player exists, `start_session` returns its stats unchanged and
does not touch the store. -/
theorem start_session_found (db : DB) (body : StartSessionRequest)
    (pd : PlayerDoc)
    (h : alist.get? db.players body.session_id = Option.some pd) :
    start_session db body =
      ({ session_id := body.session_id, public_trust := pd.public_trust,
         personal_clout := pd.personal_clout,
         professional_skill := pd.professional_skill,
         relationships := pd.relationships }, db) := by
  unfold start_session
  rw [h]

/-- C7: submitting any choice for a session with no player record fails with
the 404 "Session not found" error and leaves the store exactly as it was: no
player record is created or modified and no log entry is appended. -/
theorem submit_choice_not_found (db : DB) (body : ChoiceRequest)
    (h : alist.get? db.players body.session_id = Option.none) :
    (submit_choice db body).1 =
      Except.error (Err.notFound "Session not found. Start first.") ∧
    (submit_choice db body).2 = db := by
  unfold submit_choice
  rw [h]
  exact ⟨rfl, rfl⟩

/-- Witness for C7 on the empty store. -/
theorem submit_choice_not_found_witness :
    (submit_choice { players := [], logs := [] } (reqOf "ethical" [])).1 =
      Except.error (Err.notFound "Session not found. Start first.") ∧
    (submit_choice { players := [], logs := [] } (reqOf "ethical" [])).2 =
      { players := [], logs := [] } :=
  submit_choice_not_found { players := [], logs := [] } (reqOf "ethical" [])
    rfl

/-- C8: `start_session` is idempotent: with no record it creates and returns
the default stats; with a record it returns the stored stats and changes
nothing; and a second call with the same id returns exactly the stats
present after the first call and never resets progress. -/
theorem start_session_idempotent (db : DB) (body : StartSessionRequest) :
    (alist.get? db.players body.session_id = Option.none →
      (start_session db body).1 =
        { session_id := body.session_id, public_trust := 50,
          personal_clout := 50, professional_skill := 0,
          relationships := [] } ∧
      alist.get? (start_session db body).2.players body.session_id =
        Option.some defaultPlayer) ∧
    (∀ pd : PlayerDoc,
      alist.get? db.players body.session_id = Option.some pd →
      (start_session db body).2 = db ∧
      (start_session db body).1 =
        { session_id := body.session_id, public_trust := pd.public_trust,
          personal_clout := pd.personal_clout,
          professional_skill := pd.professional_skill,
          relationships := pd.relationships }) ∧
    (∀ pd₁ : PlayerDoc,
      alist.get? (start_session db body).2.players body.session_id =
        Option.some pd₁ →
      (start_session (start_session db body).2 body).2 =
        (start_session db body).2 ∧
      (start_session (start_session db body).2 body).1 =
        { session_id := body.session_id, public_trust := pd₁.public_trust,
          personal_clout := pd₁.personal_clout,
          professional_skill := pd₁.professional_skill,
          relationships := pd₁.relationships }) := by
  refine ⟨?_, ?_, ?_⟩
  · intro h
    unfold start_session
    rw [h]
    exact ⟨rfl, alist.get_append_singleton db.players body.session_id
      defaultPlayer h⟩
  · intro pd h
    rw [start_session_found db body pd h]
    exact ⟨rfl, rfl⟩
  · intro pd₁ h1
    rw [start_session_found (start_session db body).2 body pd₁ h1]
    exact ⟨rfl, rfl⟩

/-- Witness for C8: starting the same fresh session twice returns default
stats both times. -/
theorem start_session_idempotent_witness :
    (start_session { players := [], logs := [] } { session_id := "s" }).1 =
      { session_id := "s", public_trust := 50, personal_clout := 50,
        professional_skill := 0, relationships := [] } ∧
    (start_session (start_session { players := [], logs := [] }
        { session_id := "s" }).2 { session_id := "s" }).1 =
      { session_id := "s", public_trust := 50, personal_clout := 50,
        professional_skill := 0, relationships := [] } := by
  obtain ⟨h1, h2, h3⟩ := start_session_idempotent
    { players := [], logs := [] } { session_id := "s" }
  obtain ⟨ha, hb⟩ := h1 rfl
  obtain ⟨hc, hd⟩ := h3 defaultPlayer hb
  exact ⟨ha, hd⟩

/-- A module tag that matches none of the three recognized values makes the
resolver reject. -/
theorem resolve_unknown (module : String) (payload : Payload) (pt pc ps : Int)
    (rel : Rel) (h1 : module ≠ "prebunking") (h2 : module ≠ "ethical")
    (h3 : module ≠ "professional") :
    resolve module payload pt pc ps rel = Option.none := by
  simp [resolve, beq_iff_eq, h1, h2, h3]

/-- A recognized module tag always resolves, whatever the payload. -/
theorem resolve_known_isSome (module : String) (payload : Payload)
    (pt pc ps : Int) (rel : Rel)
    (hm : module = "prebunking" ∨ module = "ethical" ∨
      module = "professional") :
    (resolve module payload pt pc ps rel).isSome := by
  rcases hm with h | h | h <;> subst h <;>
    simp only [resolve] <;> split_ifs <;> simp_all

/-- C6 is false as stated: "Prebunking" is not one of the three recognized
tag values, yet the submission succeeds because the code lowercases the tag
before comparing; and an unknown module tag submitted for a session with no
player record fails with NotFound, not BadRequest. -/
theorem unknown_module_counterexample :
    (("Prebunking" : String) ≠ "prebunking" ∧
     ("Prebunking" : String) ≠ "ethical" ∧
     ("Prebunking" : String) ≠ "professional") ∧
    (submit_choice dbS (reqOf "Prebunking"
      [("label", PyVal.str "verified"), ("truth", PyVal.str "verified")])).1 =
      Except.ok
        { session_id := "s", public_trust := 55, personal_clout := 52,
          professional_skill := 0, relationships := [],
          outcome :=
            { message := "Good call.", dTrust := Option.some 5,
              dClout := Option.some 2, dSkill := Option.none,
              dRel := [] } } ∧
    (submit_choice { players := [], logs := [] } (reqOf "bogus" [])).1 =
      Except.error (Err.notFound "Session not found. Start first.") :=
  ⟨by decide, rfl, rfl⟩

/-- C6 (amended): for a submission whose player exists, the request fails
with BadRequest "Unknown module" exactly when the lowercased module tag is
not one of the three recognized values, and such a failure leaves the store
untouched (no player write, no log entry); a submission whose lowercased tag
is recognized never fails with BadRequest. -/
theorem unknown_module_badRequest (db : DB) (body : ChoiceRequest) :
    (∀ pd : PlayerDoc,
      alist.get? db.players body.session_id = Option.some pd →
      strLower body.module ≠ "prebunking" →
      strLower body.module ≠ "ethical" →
      strLower body.module ≠ "professional" →
      (submit_choice db body).1 =
        Except.error (Err.badRequest "Unknown module") ∧
      (submit_choice db body).2 = db) ∧
    (strLower body.module = "prebunking" ∨
      strLower body.module = "ethical" ∨
      strLower body.module = "professional" →
      ∀ d : String,
        (submit_choice db body).1 ≠ Except.error (Err.badRequest d)) := by
  constructor
  · intro pd hpd h1 h2 h3
    unfold submit_choice
    rw [hpd]
    dsimp only
    rw [resolve_unknown _ _ _ _ _ _ h1 h2 h3]
    exact ⟨rfl, rfl⟩
  · intro hm d heq
    unfold submit_choice at heq
    cases hl : alist.get? db.players body.session_id with
    | none =>
        rw [hl] at heq
        simp at heq
    | some pd =>
        rw [hl] at heq
        dsimp only at heq
        have hs := resolve_known_isSome (strLower body.module) body.payload
          pd.public_trust pd.personal_clout pd.professional_skill
          pd.relationships hm
        cases hres : resolve (strLower body.module) body.payload
            pd.public_trust pd.personal_clout pd.professional_skill
            pd.relationships with
        | none => rw [hres] at hs; simp at hs
        | some r =>
            obtain ⟨pt, pc, ps, rel, out⟩ := r
            rw [hres] at heq
            simp at heq

/-- Witness for the amended C6 at a concrete unknown tag. -/
theorem unknown_module_badRequest_witness :
    (submit_choice dbS (reqOf "bogus" [])).1 =
      Except.error (Err.badRequest "Unknown module") ∧
    (submit_choice dbS (reqOf "bogus" [])).2 = dbS := by
  obtain ⟨hfwd, hconv⟩ := unknown_module_badRequest dbS (reqOf "bogus" [])
  exact hfwd defaultPlayer (by decide) (by decide) (by decide) (by decide)

/-- Store fixture with a player whose skill is strictly positive. -/
def dbP : DB :=
  { players := [("s",
      { public_trust := 50, personal_clout := 50, professional_skill := 10,
        relationships := [] })], logs := [] }

/-- C5 is false as stated: a professional submission whose payload lacks
`success` (an unrecognized payload shape for that module) changes the stored
stats, dropping skill from 10 to 8; and a prebunking submission with both
`label` and `truth` missing takes the correct branch (None == None) and
raises trust while lowering clout. -/
theorem no_op_counterexample :
    alist.get? (submit_choice dbP (reqOf "professional" [])).2.players "s" =
      Option.some
        { public_trust := 50, personal_clout := 50, professional_skill := 8,
          relationships := [] } ∧
    ¬ alist.get? (submit_choice dbP (reqOf "professional" [])).2.players "s" =
      alist.get? dbP.players "s" ∧
    alist.get? (submit_choice dbS (reqOf "prebunking" [])).2.players "s" =
      Option.some
        { public_trust := 55, personal_clout := 49, professional_skill := 0,
          relationships := [] } :=
  ⟨by decide, by decide, by decide⟩

/-- C5 (amended): a submission with a recognized module never errors,
whatever the payload values; for the ethical module an unrecognized choice
value resolves to the no-op outcome "No effect" with the player unchanged;
prebunking and professional however apply their branch arithmetic to
whatever values the payload holds, so unrecognized or missing values there
can still change stats. -/
theorem recognized_module_no_error (db : DB) (body : ChoiceRequest)
    (pd : PlayerDoc)
    (hpd : alist.get? db.players body.session_id = Option.some pd)
    (hm : body.module = "prebunking" ∨ body.module = "ethical" ∨
      body.module = "professional") :
    (∃ r : ChoiceResponse, (submit_choice db body).1 = Except.ok r) ∧
    (body.module = "ethical" →
      ∀ c : PyVal, Payload.getD body.payload "choice" PyVal.none = c →
      c ≠ PyVal.str "intervene" → c ≠ PyVal.str "report" →
      c ≠ PyVal.str "stay_silent" → c ≠ PyVal.str "participate" →
      alist.get? (submit_choice db body).2.players body.session_id =
        Option.some pd ∧
      ∃ r : ChoiceResponse, (submit_choice db body).1 = Except.ok r ∧
        r.outcome.message = "No effect") := by
  have hml : strLower body.module = "prebunking" ∨
      strLower body.module = "ethical" ∨
      strLower body.module = "professional" := by
    rcases hm with h | h | h
    · exact Or.inl (by rw [h]; decide)
    · exact Or.inr (Or.inl (by rw [h]; decide))
    · exact Or.inr (Or.inr (by rw [h]; decide))
  constructor
  · have hs := resolve_known_isSome (strLower body.module) body.payload
      pd.public_trust pd.personal_clout pd.professional_skill
      pd.relationships hml
    unfold submit_choice
    rw [hpd]
    dsimp only
    cases hres : resolve (strLower body.module) body.payload pd.public_trust
        pd.personal_clout pd.professional_skill pd.relationships with
    | none => rw [hres] at hs; simp at hs
    | some r =>
        obtain ⟨pt, pc, ps, rel, out⟩ := r
        exact ⟨_, rfl⟩
  · intro hme c hc h1 h2 h3 h4
    have hlow : strLower "ethical" = "ethical" := by decide
    have hres : resolve (strLower body.module) body.payload pd.public_trust
        pd.personal_clout pd.professional_skill pd.relationships =
        Option.some (pd.public_trust, pd.personal_clout,
          pd.professional_skill, pd.relationships,
          { message := "No effect", dTrust := Option.none,
            dClout := Option.none, dSkill := Option.none, dRel := [] }) := by
      rw [hme, hlow]
      simp [resolve, hc, PyVal.eq_str_false _ _ h1, PyVal.eq_str_false _ _ h2,
        PyVal.eq_str_false _ _ h3, PyVal.eq_str_false _ _ h4]
    rw [submit_choice_found db body pd hpd _ _ _ _ _ hres]
    exact ⟨alist.get_set_self _ _ _, _, rfl, rfl⟩

/-- Witness for the amended C5: an ethical submission with an integer choice
value succeeds as a no-op. -/
theorem recognized_module_no_error_witness :
    (∃ r : ChoiceResponse,
      (submit_choice dbS (reqOf "ethical" [("choice", PyVal.int 3)])).1 =
        Except.ok r) ∧
    alist.get? (submit_choice dbS
      (reqOf "ethical" [("choice", PyVal.int 3)])).2.players "s" =
      Option.some defaultPlayer := by
  obtain ⟨hok, hnop⟩ := recognized_module_no_error dbS
    (reqOf "ethical" [("choice", PyVal.int 3)]) defaultPlayer (by decide)
    (Or.inr (Or.inl rfl))
  obtain ⟨hstore, r, hr, hmsg⟩ := hnop rfl (PyVal.int 3) rfl
    (by decide) (by decide) (by decide) (by decide)
  exact ⟨hok, hstore⟩

set_option maxHeartbeats 2000000 in
/-- Every delta the resolver reports mirrors the arithmetic applied to the
stored stats: starting from in-range stats, each reported field delta `d`
turns old value `v` into `clamp (v + d)`, and each reported relationship
delta likewise from the default-50 read. -/
theorem resolve_deltas (module : String) (payload : Payload) (pt pc ps : Int)
    (rel : Rel) (pt' pc' ps' : Int) (rel' : Rel) (out : Outcome)
    (h0 : 0 ≤ pt) (h1 : pt ≤ 100) (h2 : 0 ≤ pc) (h3 : pc ≤ 100)
    (h4 : 0 ≤ ps) (h5 : ps ≤ 100)
    (hrel : ∀ kv ∈ rel, 0 ≤ kv.2 ∧ kv.2 ≤ 100)
    (hres : resolve module payload pt pc ps rel =
      Option.some (pt', pc', ps', rel', out)) :
    (∀ d : Int, out.dTrust = Option.some d → pt' = clamp (pt + d)) ∧
    (∀ d : Int, out.dClout = Option.some d → pc' = clamp (pc + d)) ∧
    (∀ d : Int, out.dSkill = Option.some d → ps' = clamp (ps + d)) ∧
    (∀ (k : String) (d : Int), (k, d) ∈ out.dRel →
      alist.get? rel' k = Option.some (clamp (alist.getD rel k 50 + d))) := by
  have hvic := alist.getD_bound rel hrel "victim" 50 (by omega) (by omega)
  have hbys := alist.getD_bound rel hrel "bystander" 50 (by omega) (by omega)
  have hbv : ("bystander" : String) ≠ "victim" := by decide
  have hvb : ("victim" : String) ≠ "bystander" := by decide
  simp only [resolve] at hres
  split_ifs at hres <;>
    simp only [Option.some.injEq, Prod.mk.injEq] at hres <;>
    obtain ⟨e1, e2, e3, e4, e5⟩ := hres <;>
    subst e1 <;> subst e2 <;> subst e3 <;> subst e4 <;> subst e5 <;>
    refine ⟨?_, ?_, ?_, ?_⟩ <;>
    first
      | (intro d hd; simp_all; done)
      | (intro d hd; simp at hd; unfold clamp; omega)
      | (intro k d hkd; simp_all; done)
      | (intro k d hkd; simp only [List.mem_singleton, Prod.mk.injEq] at hkd;
         obtain ⟨hk, hd⟩ := hkd; subst hk; subst hd;
         rw [alist.get_set_self]; congr 1; unfold clamp; omega)
      | (intro k d hkd;
         simp only [List.mem_cons, List.mem_singleton, Prod.mk.injEq,
           List.not_mem_nil, or_false] at hkd;
         rcases hkd with ⟨hk, hd⟩ | ⟨hk, hd⟩ <;> subst hk <;> subst hd <;>
           first
             | (rw [alist.get_set_ne _ _ _ _ hvb, alist.get_set_self];
                congr 1; unfold clamp; omega)
             | (rw [alist.get_set_self, alist.getD_set_ne _ _ _ _ _ hbv];
                congr 1; unfold clamp; omega))

/-- C9: every successful choice submission returns and logs an outcome whose
reported deltas exactly mirror the arithmetic applied to the stored stats:
for each field carrying a delta `d`, the stored value after the submission is
the clamp to `[0, 100]` of the value before plus `d`, and likewise for each
reported relationship delta from its default-50 read. -/
theorem outcome_deltas_mirror (db : DB) (body : ChoiceRequest)
    (pd : PlayerDoc)
    (hpd : alist.get? db.players body.session_id = Option.some pd)
    (hr : pd.InRange) (r : ChoiceResponse)
    (hok : (submit_choice db body).1 = Except.ok r) :
    ∃ pd' : PlayerDoc,
      alist.get? (submit_choice db body).2.players body.session_id =
        Option.some pd' ∧
      (submit_choice db body).2.logs = db.logs ++
        [{ session_id := body.session_id, module := strLower body.module,
           action_type := body.action_type, payload := body.payload,
           outcome := r.outcome }] ∧
      (∀ d : Int, r.outcome.dTrust = Option.some d →
        pd'.public_trust = clamp (pd.public_trust + d)) ∧
      (∀ d : Int, r.outcome.dClout = Option.some d →
        pd'.personal_clout = clamp (pd.personal_clout + d)) ∧
      (∀ d : Int, r.outcome.dSkill = Option.some d →
        pd'.professional_skill = clamp (pd.professional_skill + d)) ∧
      (∀ (k : String) (d : Int), (k, d) ∈ r.outcome.dRel →
        alist.get? pd'.relationships k =
          Option.some (clamp (alist.getD pd.relationships k 50 + d))) := by
  obtain ⟨b0, b1, b2, b3, b4, b5, b6⟩ := hr
  cases hres : resolve (strLower body.module) body.payload pd.public_trust
      pd.personal_clout pd.professional_skill pd.relationships with
  | none =>
      unfold submit_choice at hok
      rw [hpd] at hok
      dsimp only at hok
      rw [hres] at hok
      simp at hok
  | some t =>
      obtain ⟨pt, pc, ps, rel, out⟩ := t
      have heq := submit_choice_found db body pd hpd pt pc ps rel out hres
      rw [heq] at hok
      rw [heq]
      dsimp only at hok ⊢
      rw [Except.ok.injEq] at hok
      subst hok
      obtain ⟨hdT, hdC, hdS, hdR⟩ := resolve_deltas (strLower body.module)
        body.payload pd.public_trust pd.personal_clout pd.professional_skill
        pd.relationships pt pc ps rel out b0 b1 b2 b3 b4 b5 b6 hres
      exact ⟨_, alist.get_set_self _ _ _, rfl, hdT, hdC, hdS, hdR⟩

/-- Witness for C9: a concrete `report` submission from defaults stores
trust `clamp (50 + 4)` and victim `clamp (50 + 6)`, matching its reported
deltas. -/
theorem outcome_deltas_mirror_witness :
    ∃ pd' : PlayerDoc,
      alist.get? (submit_choice dbS
        (reqOf "ethical" [("choice", PyVal.str "report")])).2.players "s" =
        Option.some pd' ∧
      pd'.public_trust = clamp (50 + 4) ∧
      alist.get? pd'.relationships "victim" =
        Option.some (clamp (50 + 6)) := by
  have hok : (submit_choice dbS
      (reqOf "ethical" [("choice", PyVal.str "report")])).1 =
      Except.ok
        { session_id := "s", public_trust := 54, personal_clout := 50,
          professional_skill := 0, relationships := [("victim", 56)],
          outcome :=
            { message := "You reported the issue.", dTrust := Option.some 4,
              dClout := Option.none, dSkill := Option.none,
              dRel := [("victim", 6)] } } := rfl
  obtain ⟨pd', hA, hL, hdT, hdC, hdS, hdR⟩ := outcome_deltas_mirror dbS
    (reqOf "ethical" [("choice", PyVal.str "report")]) defaultPlayer
    (by decide) (by decide) _ hok
  exact ⟨pd', hA, hdT 4 rfl, hdR "victim" 6 (by decide)⟩

/-- Keys other than `victim` and `bystander` are never touched by the
resolver. -/
theorem resolve_rel_frame (module : String) (payload : Payload)
    (pt pc ps : Int) (rel : Rel) (pt' pc' ps' : Int) (rel' : Rel)
    (out : Outcome)
    (hres : resolve module payload pt pc ps rel =
      Option.some (pt', pc', ps', rel', out))
    (k : String) (hk1 : k ≠ "victim") (hk2 : k ≠ "bystander") :
    alist.get? rel' k = alist.get? rel k := by
  simp only [resolve] at hres
  split_ifs at hres <;>
    simp only [Option.some.injEq, Prod.mk.injEq] at hres <;>
    obtain ⟨e1, e2, e3, e4, e5⟩ := hres <;> subst e4 <;>
    first
      | rfl
      | (rw [alist.get_set_ne _ _ _ _ hk2, alist.get_set_ne _ _ _ _ hk1])
      | (rw [alist.get_set_ne _ _ _ _ hk1])

/-- C10: no successful choice submission modifies a relationship entry under
any key other than `victim` and `bystander`: the stored value for every
other key is exactly what it was before the submission (in particular no
such key is added or removed). -/
theorem relationships_frame (db : DB) (body : ChoiceRequest) (pd : PlayerDoc)
    (hpd : alist.get? db.players body.session_id = Option.some pd)
    (r : ChoiceResponse)
    (hok : (submit_choice db body).1 = Except.ok r) (k : String)
    (hk1 : k ≠ "victim") (hk2 : k ≠ "bystander") :
    ∃ pd' : PlayerDoc,
      alist.get? (submit_choice db body).2.players body.session_id =
        Option.some pd' ∧
      alist.get? pd'.relationships k = alist.get? pd.relationships k := by
  cases hres : resolve (strLower body.module) body.payload pd.public_trust
      pd.personal_clout pd.professional_skill pd.relationships with
  | none =>
      unfold submit_choice at hok
      rw [hpd] at hok
      dsimp only at hok
      rw [hres] at hok
      simp at hok
  | some t =>
      obtain ⟨pt, pc, ps, rel, out⟩ := t
      rw [submit_choice_found db body pd hpd pt pc ps rel out hres]
      exact ⟨_, alist.get_set_self _ _ _,
        resolve_rel_frame (strLower body.module) body.payload pd.public_trust
          pd.personal_clout pd.professional_skill pd.relationships
          pt pc ps rel out hres k hk1 hk2⟩

/-- Store fixture with a player holding an unrelated relationship key. -/
def dbA : DB :=
  { players := [("s",
      { public_trust := 50, personal_clout := 50, professional_skill := 0,
        relationships := [("ally", 77)] })], logs := [] }

/-- Witness for C10: an `intervene` submission leaves the `ally`
relationship exactly as stored. -/
theorem relationships_frame_witness :
    ∃ pd' : PlayerDoc,
      alist.get? (submit_choice dbA
        (reqOf "ethical" [("choice", PyVal.str "intervene")])).2.players
        "s" = Option.some pd' ∧
      alist.get? pd'.relationships "ally" =
        alist.get?
          ({ public_trust := 50, personal_clout := 50,
             professional_skill := 0,
             relationships := [("ally", 77)] } : PlayerDoc).relationships
          "ally" := by
  have hok : (submit_choice dbA
      (reqOf "ethical" [("choice", PyVal.str "intervene")])).1 =
      Except.ok
        { session_id := "s", public_trust := 56, personal_clout := 50,
          professional_skill := 0,
          relationships := [("ally", 77), ("victim", 58), ("bystander", 58)],
          outcome :=
            { message := "You stood up. Respect earned.",
              dTrust := Option.some 6, dClout := Option.none,
              dSkill := Option.none,
              dRel := [("victim", 8), ("bystander", 8)] } } := rfl
  exact relationships_frame dbA
    (reqOf "ethical" [("choice", PyVal.str "intervene")])
    { public_trust := 50, personal_clout := 50, professional_skill := 0,
      relationships := [("ally", 77)] }
    (by decide) _ hok "ally" (by decide) (by decide)

end Litera
